import Mathlib

/-!
Formal model of the admission pipeline of the B2B payment gateway
(identity resolver, policy authorizer, idempotency cache), embedded
shallowly from the Go sources:

* `internal/server/middleware` — `TenantExtraction`, `GetTenantID`,
  `Idempotency.Idempotent`, `responseRecorder`;
* `internal/policy/opa.go` — `defaultPolicy` (the embedded Rego source),
  `OPAClient.Evaluate`, `OPAClient.UpdatePolicy`.

Strings are Lean `String`; Go's `strings.HasPrefix/HasSuffix/TrimPrefix/
TrimSuffix` are reproduced below with their exact Go semantics. HTTP
headers are modelled as single-valued association lists and response
bodies as strings of bytes. The Redis backend is abstracted by the
outcome it can produce for the one lookup and the one store a request
performs.

The miss/degraded path of the idempotency middleware is modelled as it
behaves in the source, not as the surrounding comments intend: the
`responseRecorder` built at idempotency.go lines 103-104 embeds
`c.Response()` (under the embedded type name `echo.ResponseWriter`,
which does not exist in echo v4) while being installed as
`c.Response().Writer`, so `Write`, `WriteHeader` and `Header` of the
recorder and of the response delegate to each other without a base case
(`Committed` is set only after the delegated `WriteHeader` returns).
The first header read or body write therefore recurses without bound;
no response is delivered to the client and the `Set` at line 132 is
never reached. This divergence is represented by `recorderCrash`
(`response = none`, nothing stored). Independently, the store block
itself swallows the `json.Marshal` error at line 131, so even under the
intended wiring a captured body that is not valid JSON would be stored
as nil bytes and replayed as a 500 "corrupted idempotency record".
-/

namespace B2B

/-! ### Go string helpers (exact semantics of the `strings` package) -/

/-- Go `strings.HasPrefix s p`. -/
def goHasPrefix (s p : String) : Bool :=
  p.data.isPrefixOf s.data

/-- Go `strings.HasSuffix s p`. -/
def goHasSuffix (s p : String) : Bool :=
  p.data.isSuffixOf s.data

/-- Go `strings.TrimPrefix s p`: drop `p` from the front when present. -/
def goTrimPrefix (s p : String) : String :=
  if goHasPrefix s p then ⟨s.data.drop p.data.length⟩ else s

/-- Go `strings.TrimSuffix s p`: drop `p` from the end when present. -/
def goTrimSuffix (s p : String) : String :=
  if goHasSuffix s p then ⟨s.data.take (s.data.length - p.data.length)⟩ else s

/-! ### Identity resolver (`TenantExtraction` middleware) -/

/-- The part of an X.509 certificate the resolver reads. -/
structure GoCert where
  commonName : String
  serialNumber : Nat
deriving DecidableEq, Repr

/-- The part of `tls.ConnectionState` the resolver reads. A `nil`
connection state is modelled by `Option TLSConnState` at the call site;
`nil` slices are modelled by empty lists. -/
structure TLSConnState where
  peerCertificates : List GoCert
  verifiedChains : List (List GoCert)
deriving DecidableEq, Repr

/-- What the resolver middleware does with the request: either it
short-circuits with `echo.NewHTTPError(status, msg)`, or it stores the
tenant id in the request context and calls the next handler. -/
inductive ResolverOutcome where
  | httpError (status : Nat) (msg : String)
  | ok (tenantID : String)
deriving DecidableEq, Repr

/-- `TenantExtraction` from `internal/server/middleware`: checks the
TLS state, the verified chains, and the leaf certificate's common name
against the pattern `tenant-<id>.yourorg.com`, and extracts `<id>`. -/
def TenantExtraction (tls : Option TLSConnState) : ResolverOutcome :=
  match tls with
  | none => .httpError 401 "missing client certificate"
  | some st =>
    match st.peerCertificates with
    | [] => .httpError 401 "missing client certificate"
    | clientCert :: _ =>
      if st.verifiedChains = [] then
        .httpError 401 "client certificate not verified by trusted CA"
      else
        let cn := clientCert.commonName
        if cn = "" then
          .httpError 401 "client certificate missing Common Name"
        else if goHasPrefix cn "tenant-" = false ∨ goHasSuffix cn ".yourorg.com" = false then
          .httpError 403 ("invalid client certificate CN: " ++ cn)
        else
          let tenantID := goTrimSuffix (goTrimPrefix cn "tenant-") ".yourorg.com"
          if tenantID = "" then
            .httpError 403 "empty tenant ID in certificate"
          else
            .ok tenantID

/-- `GetTenantID`: reads the tenant id from the request context; fails
when the context value is absent (or not a string) or empty. -/
def GetTenantID (ctxTenant : Option String) : Except Unit String :=
  match ctxTenant with
  | none => .error ()
  | some t => if t = "" then .error () else .ok t

/-! ### Policy authorizer (`internal/policy/opa.go`) -/

/-- `PolicyInput`, with the attribute bag specialized to the fields the
gateway actually stores in it (`permissions`, `tier`, `compliant`). -/
structure PolicyInput where
  tenantID : String
  method : String
  path : String
  headers : List (String × String)
  userAgent : String
  clientIP : String
  permissions : List String
  tier : String
  compliant : Bool
deriving DecidableEq, Repr

/-- `PolicyResult` (the `Data` field is never populated by the source,
so it is omitted). -/
structure PolicyResult where
  allowed : Bool
  reason : String
deriving DecidableEq, Repr

/-- Rego rule `has_tenant_id` of the embedded `defaultPolicy`. -/
def has_tenant_id (i : PolicyInput) : Bool :=
  i.tenantID != ""

/-- Rego rule `tenant_active` (always true in the source). -/
def tenant_active (_ : PolicyInput) : Bool :=
  true

/-- Rego rule `tenant_can_create_payments`. -/
def tenant_can_create_payments (i : PolicyInput) : Bool :=
  i.permissions.contains "create_payments"

/-- Rego rule `tenant_can_access_payment` (always true in the source). -/
def tenant_can_access_payment (_ : PolicyInput) : Bool :=
  true

/-- Rego rule `tenant_can_update_payment`. -/
def tenant_can_update_payment (i : PolicyInput) : Bool :=
  i.permissions.contains "update_payments"

/-- `allow` clause 1: `GET /health`. -/
def allowRule1 (i : PolicyInput) : Bool :=
  i.method == "GET" && i.path == "/health"

/-- `allow` clause 2: `GET /api/v1/whoami` with a tenant id. -/
def allowRule2 (i : PolicyInput) : Bool :=
  i.method == "GET" && i.path == "/api/v1/whoami" && has_tenant_id i

/-- `allow` clause 3: `GET /api/v1/payments` for an active tenant. -/
def allowRule3 (i : PolicyInput) : Bool :=
  i.method == "GET" && i.path == "/api/v1/payments" && has_tenant_id i && tenant_active i

/-- `allow` clause 4: `POST /api/v1/payments` with create permission. -/
def allowRule4 (i : PolicyInput) : Bool :=
  i.method == "POST" && i.path == "/api/v1/payments" && has_tenant_id i && tenant_active i
    && tenant_can_create_payments i

/-- `allow` clause 5: `GET /api/v1/payments/...`. -/
def allowRule5 (i : PolicyInput) : Bool :=
  i.method == "GET" && goHasPrefix i.path "/api/v1/payments/" && has_tenant_id i
    && tenant_active i && tenant_can_access_payment i

/-- `allow` clause 6: `PUT /api/v1/payments/...` with update permission. -/
def allowRule6 (i : PolicyInput) : Bool :=
  i.method == "PUT" && goHasPrefix i.path "/api/v1/payments/" && has_tenant_id i
    && tenant_active i && tenant_can_update_payment i

/-- `data.b2b_payments.auth.allow` of the embedded `defaultPolicy`:
`default allow = false`, overridden by any matching clause. -/
def defaultPolicyAllow (i : PolicyInput) : Bool :=
  allowRule1 i || allowRule2 i || allowRule3 i || allowRule4 i || allowRule5 i || allowRule6 i

/-- What the Rego evaluator can hand back to `OPAClient.Evaluate` for
the query `data.b2b_payments.auth.allow`: an evaluation error, an empty
result set, a result whose value is not a boolean, or a boolean. -/
inductive EvalOutcome where
  | err (msg : String)
  | noResult
  | nonBool
  | boolResult (b : Bool)
deriving DecidableEq, Repr

/-- `OPAClient`: holds one compiled policy, modelled by the evaluation
behavior of the prepared query. -/
structure OPAClient where
  policy : PolicyInput → EvalOutcome

/-- The compiled form of the embedded `defaultPolicy`: the query always
evaluates to the boolean `defaultPolicyAllow`. -/
def compiledDefaultPolicy : PolicyInput → EvalOutcome :=
  fun i => .boolResult (defaultPolicyAllow i)

/-- The result-parsing tail of `OPAClient.Evaluate`: evaluation errors
propagate, an empty result set and a non-boolean value both yield a
denial with the corresponding reason, and a boolean is the decision
(with reason "access denied by policy" when it is false). -/
def evaluateParse (o : EvalOutcome) : Except String PolicyResult :=
  match o with
  | .err m => .error ("failed to evaluate policy: " ++ m)
  | .noResult => .ok { allowed := false, reason := "no policy decision" }
  | .nonBool => .ok { allowed := false, reason := "invalid policy result" }
  | .boolResult b => .ok { allowed := b, reason := if b then "" else "access denied by policy" }

/-- `OPAClient.Evaluate`: run the held prepared query on the input and
parse the result. -/
def OPAClient.Evaluate (c : OPAClient) (i : PolicyInput) : Except String PolicyResult :=
  evaluateParse (c.policy i)

/-- `OPAClient.UpdatePolicy`: compile the new source; on failure return
the wrapped error and keep the old policy, on success swap it in. The
Rego compile step is passed in as a function. -/
def OPAClient.UpdatePolicy (compile : String → Except String (PolicyInput → EvalOutcome))
    (c : OPAClient) (src : String) : Except String Unit × OPAClient :=
  match compile src with
  | .error e => (.error ("failed to compile new policy: " ++ e), c)
  | .ok p => (.ok (), { policy := p })

/-! ### Idempotency middleware (`Idempotency.Idempotent`) -/

/-- The cached `idempotencyRecord`: status, single-valued headers, body. -/
structure IdempotencyRecord where
  statusCode : Nat
  headers : List (String × String)
  body : String
deriving DecidableEq, Repr

/-- A value found in the cache: a well-formed record, or bytes that do
not unmarshal (`corrupt`). -/
inductive CacheEntry where
  | record (rec : IdempotencyRecord)
  | corrupt
deriving DecidableEq, Repr

/-- Outcome of the one Redis `Get` a request performs: a value was
found (`err == nil`), the key was absent (`err == redis.Nil`), or the
backend failed (any other error). -/
inductive LookupResult where
  | found (e : CacheEntry)
  | missing
  | failure
deriving DecidableEq, Repr

/-- The request fields the middleware reads. `idempotencyKey` is the
raw value of `Header.Get("Idempotency-Key")`, which is `""` when the
header is absent; `tenant` is the context value set (or not) by
`TenantExtraction`. -/
structure MwRequest where
  method : String
  idempotencyKey : String
  tenant : Option String
deriving DecidableEq, Repr

/-- What the handler writes through the `responseRecorder` when it is
invoked: `status` is the recorder's captured status, `0` when the
handler never calls `WriteHeader`. -/
structure HandlerResp where
  status : Nat
  headers : List (String × String)
  body : String
deriving DecidableEq, Repr

/-- The client-visible response. -/
structure MwResponse where
  status : Nat
  headers : List (String × String)
  body : String
deriving DecidableEq, Repr

/-- Everything observable about one pass through the middleware:
the response delivered to the client (`none` when the request diverges
in the recorder recursion before any response is produced), whether the
wrapped handler was invoked, whether the cache was consulted and under
which key, and the record written to the cache (with its key), if any. -/
structure MwOutcome where
  response : Option MwResponse
  handlerInvoked : Bool
  lookedUp : Bool
  lookupKey : Option String
  stored : Option (String × IdempotencyRecord)
deriving DecidableEq, Repr

/-- Go `method != POST && method != PUT && method != PATCH` negated:
the methods the middleware intercepts. -/
def isStateChanging (method : String) : Bool :=
  method == "POST" || method == "PUT" || method == "PATCH"

/-- The namespaced cache key `fmt.Sprintf("idempotency:%s:%s", ...)`. -/
def cacheKey (tenantID idempotencyKey : String) : String :=
  "idempotency:" ++ tenantID ++ ":" ++ idempotencyKey

/-- The status the middleware works with after the handler returns:
a captured `0` (no `WriteHeader` call) is treated as `200`. -/
def effectiveStatus (s : Nat) : Nat :=
  if s = 0 then 200 else s

/-- An `echo.NewHTTPError(status, msg)` response. -/
def httpErrorResponse (status : Nat) (msg : String) : MwResponse :=
  { status := status, headers := [], body := msg }

/-- The response the client sees when the handler actually runs. -/
def realResponse (h : HandlerResp) : MwResponse :=
  { status := effectiveStatus h.status, headers := h.headers, body := h.body }

/-- The miss/degraded path of `Idempotent` as the source behaves. The
recorder built at idempotency.go line 103 wraps `c.Response()` while
line 104 installs it as `c.Response().Writer`, so the recorder's
`Write`/`WriteHeader`/`Header` and the response's delegate to each
other without a base case. The handler is invoked (its side effects
begin), but its first write — or, for a handler that writes nothing,
the `recorder.Header()` call in the store block at line 119 — recurses
without bound: no response is delivered, the `Set` at line 132 is never
reached, and nothing is stored for any handler status, so whether the
`Set` would fail is irrelevant. -/
def recorderCrash (key : String) : MwOutcome :=
  { response := none
    handlerInvoked := true
    lookedUp := true
    lookupKey := some key
    stored := none }

/-- `Idempotency.Idempotent` from `internal/server/middleware`:
non-state-changing methods pass through; a missing key is a 400; a
missing tenant context is a 401; then the cache is consulted under the
namespaced key — a hit replays the stored record (a corrupt one is a
500), while a miss and a backend failure both invoke the handler
through the broken recorder and diverge (`recorderCrash`).
`lookup` is the outcome Redis produces for this request's key and
`storeFails` whether a `Set` would fail (the source never reaches it). -/
def Idempotent (req : MwRequest) (lookup : LookupResult) (_storeFails : Bool)
    (h : HandlerResp) : MwOutcome :=
  if isStateChanging req.method = false then
    { response := some (realResponse h), handlerInvoked := true, lookedUp := false
      lookupKey := none, stored := none }
  else if req.idempotencyKey = "" then
    { response := some (httpErrorResponse 400 "missing Idempotency-Key header")
      handlerInvoked := false, lookedUp := false, lookupKey := none, stored := none }
  else
    match GetTenantID req.tenant with
    | .error _ =>
      { response := some (httpErrorResponse 401 "missing tenant")
        handlerInvoked := false, lookedUp := false, lookupKey := none, stored := none }
    | .ok tenantID =>
      let key := cacheKey tenantID req.idempotencyKey
      match lookup with
      | .found (.record rec) =>
        { response := some { status := rec.statusCode, headers := rec.headers, body := rec.body }
          handlerInvoked := false, lookedUp := true, lookupKey := some key, stored := none }
      | .found .corrupt =>
        { response := some (httpErrorResponse 500 "corrupted idempotency record")
          handlerInvoked := false, lookedUp := true, lookupKey := some key, stored := none }
      | .missing => recorderCrash key
      | .failure => recorderCrash key

/-! ### Sample fixtures used by witnesses -/

/-- A state-changing request with key and tenant present. -/
def sampleReq : MwRequest :=
  { method := "POST", idempotencyKey := "abc123", tenant := some "acme" }

/-- A handler response: 201 with a header and a body. -/
def sampleResp : HandlerResp :=
  { status := 201, headers := [("Content-Type", "application/json")], body := "payment p1" }

/-- A handler response with a 5xx status. -/
def otherResp : HandlerResp :=
  { status := 503, headers := [], body := "boom" }

/-- An input no allow clause of the default policy matches. -/
def deniedInput : PolicyInput :=
  { tenantID := "acme", method := "DELETE", path := "/api/v2/other", headers := []
    userAgent := "ua", clientIP := "127.0.0.1", permissions := ["read_payments"]
    tier := "enterprise", compliant := true }

/-- A client holding the compiled default policy. -/
def defaultClient : OPAClient :=
  { policy := compiledDefaultPolicy }

/-- A client whose compiled policy yields an empty result set. -/
def emptyClient : OPAClient :=
  { policy := fun _ => .noResult }

/-- A client whose compiled policy yields a non-boolean value. -/
def badClient : OPAClient :=
  { policy := fun _ => .nonBool }

/-- A compile step that always fails. -/
def failCompile : String → Except String (PolicyInput → EvalOutcome) :=
  fun _ => .error "bad rego"

/-- A verified chain ending at a root CA, for resolver fixtures. -/
def rootChain : List (List GoCert) :=
  [[{ commonName := "rootCA", serialNumber := 9 }]]

/-- A TLS state presenting one verified leaf certificate with the given
common name and serial. -/
def tlsWith (cn : String) (sn : Nat) : TLSConnState where
  peerCertificates := [{ commonName := cn, serialNumber := sn }]
  verifiedChains := rootChain

/-- `colonFree s`: no character of `s` is a colon. -/
def colonFree (s : String) : Bool :=
  s.data.all (fun c => c != ':')

/-! ### Helper lemmas -/

theorem not_mem_of_colonFree {s : String} (h : colonFree s = true) : ':' ∉ s.data := by
  intro hm
  have hc := List.all_eq_true.mp h _ hm
  simp at hc

theorem split_on_colon (a : List Char) :
    ∀ (c b d : List Char), ':' ∉ a → ':' ∉ c →
      a ++ ':' :: b = c ++ ':' :: d → a = c ∧ b = d := by
  induction a with
  | nil =>
    intro c b d _ hc h
    cases c with
    | nil =>
      simp only [List.nil_append] at h
      exact ⟨rfl, by injection h⟩
    | cons y ys =>
      exfalso
      simp only [List.nil_append, List.cons_append, List.cons.injEq] at h
      exact hc (h.1 ▸ List.mem_cons_self y ys)
  | cons x xs ih =>
    intro c b d ha hc h
    cases c with
    | nil =>
      exfalso
      simp only [List.cons_append, List.nil_append, List.cons.injEq] at h
      exact ha (h.1 ▸ List.mem_cons_self x xs)
    | cons y ys =>
      simp only [List.cons_append, List.cons.injEq] at h
      have hrec := ih ys b d (fun hx => ha (List.mem_cons_of_mem x hx))
        (fun hy => hc (h.1 ▸ List.mem_cons_of_mem y hy)) h.2
      exact ⟨by rw [h.1, hrec.1], hrec.2⟩

theorem goHasPrefix_append (p r : String) : goHasPrefix (p ++ r) p = true := by
  rw [goHasPrefix, String.data_append, List.isPrefixOf_iff_prefix]
  exact List.prefix_append p.data r.data

theorem goHasSuffix_append (l p : String) : goHasSuffix (l ++ p) p = true := by
  rw [goHasSuffix, String.data_append, List.isSuffixOf_iff_suffix]
  exact List.suffix_append l.data p.data

theorem goTrimPrefix_append (p r : String) : goTrimPrefix (p ++ r) p = r := by
  rw [goTrimPrefix, if_pos (goHasPrefix_append p r)]
  apply String.ext
  simp [String.data_append, List.drop_left]

theorem goTrimSuffix_append (l p : String) : goTrimSuffix (l ++ p) p = l := by
  rw [goTrimSuffix, if_pos (goHasSuffix_append l p)]
  apply String.ext
  simp [String.data_append, List.length_append, Nat.add_sub_cancel, List.take_left]

theorem cn_ne_empty_of_prefix {cn : String} (h : goHasPrefix cn "tenant-" = true) :
    cn ≠ "" := by
  intro he
  rw [he] at h
  exact absurd h (by decide)

/-! ### Claim theorems -/

/-- C1: evaluation of the middleware at the failing input. On a cache
miss the handler is invoked but the request diverges in the recorder
recursion: no response is delivered and no record is stored, so no
second request can ever replay the first one — the round trip the
claim describes is unreachable in the source. -/
theorem idempotency_first_execution_crashes :
    (Idempotent sampleReq .missing false sampleResp).response = none ∧
    (Idempotent sampleReq .missing false sampleResp).stored = none ∧
    (Idempotent sampleReq .missing false sampleResp).handlerInvoked = true := by
  decide

/-- C5: evaluation of the middleware at the failing input. A lookup
failure that is not a miss is indeed treated exactly like a miss (the
code logs and continues), but that degraded path then diverges in the
recorder recursion, so the client never receives the handler's real
response. -/
theorem idempotency_degraded_mode_crashes :
    Idempotent sampleReq .failure false sampleResp
        = Idempotent sampleReq .missing false sampleResp ∧
    (Idempotent sampleReq .failure false sampleResp).response = none ∧
    (Idempotent sampleReq .failure false sampleResp).handlerInvoked = true := by
  decide

/-- C6: evaluation of the middleware at the failing input. A handler
that would produce a 503 never has its status compared against 500:
the request diverges in the recorder recursion first, no response is
delivered, and nothing is stored — for any status. -/
theorem idempotency_5xx_path_crashes :
    (Idempotent sampleReq .missing false otherResp).response = none ∧
    (Idempotent sampleReq .missing false otherResp).stored = none ∧
    (Idempotent sampleReq .missing false otherResp).handlerInvoked = true := by
  decide

/-- C9: a state-changing request without an Idempotency-Key header is
answered 400 without invoking the handler, and a non-state-changing
request passes through with neither lookup nor store. -/
theorem idempotency_missing_key_and_passthrough
    (req reqRO : MwRequest) (lk lkRO : LookupResult) (sf sfRO : Bool) (h hRO : HandlerResp)
    (hm : isStateChanging req.method = true)
    (hk : req.idempotencyKey = "")
    (hro : isStateChanging reqRO.method = false) :
    ((Idempotent req lk sf h).response
        = some (httpErrorResponse 400 "missing Idempotency-Key header") ∧
     (Idempotent req lk sf h).handlerInvoked = false) ∧
    ((Idempotent reqRO lkRO sfRO hRO).response = some (realResponse hRO) ∧
     (Idempotent reqRO lkRO sfRO hRO).handlerInvoked = true ∧
     (Idempotent reqRO lkRO sfRO hRO).lookedUp = false ∧
     (Idempotent reqRO lkRO sfRO hRO).stored = none) := by
  refine ⟨⟨?_, ?_⟩, ?_, ?_, ?_, ?_⟩ <;>
    simp [Idempotent, hm, hk, hro]

/-- Witness for C9: a keyless POST is a 400 with no handler run; a GET
passes through untouched. -/
theorem idempotency_missing_key_and_passthrough_witness :
    ((Idempotent ⟨"POST", "", some "acme"⟩ .missing false sampleResp).response
        = some (httpErrorResponse 400 "missing Idempotency-Key header") ∧
     (Idempotent ⟨"POST", "", some "acme"⟩ .missing false sampleResp).handlerInvoked = false) ∧
    ((Idempotent ⟨"GET", "", none⟩ .missing false sampleResp).response
        = some (realResponse sampleResp) ∧
     (Idempotent ⟨"GET", "", none⟩ .missing false sampleResp).handlerInvoked = true ∧
     (Idempotent ⟨"GET", "", none⟩ .missing false sampleResp).lookedUp = false ∧
     (Idempotent ⟨"GET", "", none⟩ .missing false sampleResp).stored = none) :=
  idempotency_missing_key_and_passthrough ⟨"POST", "", some "acme"⟩ ⟨"GET", "", none⟩
    .missing .missing false false sampleResp sampleResp (by decide) rfl (by decide)

/-- C10: evaluation of the middleware at the failing input. A handler
that never sets an explicit status still enters the broken recorder on
the miss path: the request diverges, so no record carrying status 200
is ever stored and no later replay as 200 can occur. (Independently,
the body "ok" is not valid JSON, so even the intended store would
marshal to nil and replay as a 500.) -/
theorem idempotency_zero_status_path_crashes :
    (Idempotent sampleReq .missing false { status := 0, headers := [], body := "ok" }).response
        = none ∧
    (Idempotent sampleReq .missing false { status := 0, headers := [], body := "ok" }).stored
        = none ∧
    (Idempotent sampleReq .missing false { status := 0, headers := [], body := "ok" }).handlerInvoked
        = true := by
  decide

/-- C2: an input matched by no allow clause of the compiled default
policy is denied, and so are the cases of an empty evaluation result and
of a non-boolean result — the decision is allowed = false throughout. -/
theorem policy_default_deny
    (i : PolicyInput) (c cEmpty cBad : OPAClient)
    (h1 : allowRule1 i = false) (h2 : allowRule2 i = false) (h3 : allowRule3 i = false)
    (h4 : allowRule4 i = false) (h5 : allowRule5 i = false) (h6 : allowRule6 i = false)
    (hc : c.policy i = compiledDefaultPolicy i)
    (hE : cEmpty.policy i = .noResult)
    (hB : cBad.policy i = .nonBool) :
    defaultPolicyAllow i = false ∧
    c.Evaluate i = .ok { allowed := false, reason := "access denied by policy" } ∧
    cEmpty.Evaluate i = .ok { allowed := false, reason := "no policy decision" } ∧
    cBad.Evaluate i = .ok { allowed := false, reason := "invalid policy result" } := by
  have hall : defaultPolicyAllow i = false := by
    simp [defaultPolicyAllow, h1, h2, h3, h4, h5, h6]
  refine ⟨hall, ?_, ?_, ?_⟩ <;>
    simp [OPAClient.Evaluate, hc, hE, hB, compiledDefaultPolicy, evaluateParse, hall]

/-- Witness for C2: a DELETE to an unknown path matches no clause and
is denied, as are the empty-result and non-boolean-result clients. -/
theorem policy_default_deny_witness :
    defaultPolicyAllow deniedInput = false ∧
    defaultClient.Evaluate deniedInput
        = .ok { allowed := false, reason := "access denied by policy" } ∧
    emptyClient.Evaluate deniedInput
        = .ok { allowed := false, reason := "no policy decision" } ∧
    badClient.Evaluate deniedInput
        = .ok { allowed := false, reason := "invalid policy result" } :=
  policy_default_deny deniedInput defaultClient emptyClient badClient
    (by decide) (by decide) (by decide) (by decide) (by decide) (by decide) rfl rfl rfl

/-- C4: when compilation of the new policy source fails, UpdatePolicy
returns the wrapped error, the client still holds the previous compiled
policy, and subsequent evaluations behave exactly as before. -/
theorem update_policy_failure_keeps_old
    (compile : String → Except String (PolicyInput → EvalOutcome))
    (c : OPAClient) (src e : String) (i : PolicyInput)
    (hc : compile src = .error e) :
    (OPAClient.UpdatePolicy compile c src).1
        = .error ("failed to compile new policy: " ++ e) ∧
    (OPAClient.UpdatePolicy compile c src).2 = c ∧
    (OPAClient.UpdatePolicy compile c src).2.Evaluate i = c.Evaluate i := by
  refine ⟨?_, ?_, ?_⟩ <;> simp [OPAClient.UpdatePolicy, hc]

/-- Witness for C4: a failing compile leaves the default client as is. -/
theorem update_policy_failure_keeps_old_witness :
    (OPAClient.UpdatePolicy failCompile defaultClient "package broken").1
        = .error ("failed to compile new policy: " ++ "bad rego") ∧
    (OPAClient.UpdatePolicy failCompile defaultClient "package broken").2 = defaultClient ∧
    (OPAClient.UpdatePolicy failCompile defaultClient "package broken").2.Evaluate deniedInput
        = defaultClient.Evaluate deniedInput :=
  update_policy_failure_keeps_old failCompile defaultClient "package broken" "bad rego"
    deniedInput rfl

/-- C3 counterexample: a verified certificate with an empty common name
is rejected with status 401 (Unauthorized), not 403 (Forbidden) as the
claim states. -/
theorem resolver_empty_cn_not_forbidden :
    TenantExtraction (some (tlsWith "" 1))
      = .httpError 401 "client certificate missing Common Name" ∧ (401 : Nat) ≠ 403 :=
  ⟨by decide, by decide⟩

/-- C3 (amended): with a verified chain present, an empty common name
is rejected with 401 Unauthorized, while a prefix/suffix pattern
mismatch and an empty id after stripping are rejected with 403
Forbidden; in every such case no tenant identity reaches the context. -/
theorem resolver_reject_cases
    (st : TLSConnState) (cert : GoCert) (rest : List GoCert)
    (hpc : st.peerCertificates = cert :: rest) (hvc : st.verifiedChains ≠ []) :
    (cert.commonName = "" →
      TenantExtraction (some st) = .httpError 401 "client certificate missing Common Name" ∧
      ∀ id, TenantExtraction (some st) ≠ .ok id) ∧
    (cert.commonName ≠ "" →
      (goHasPrefix cert.commonName "tenant-" = false ∨
        goHasSuffix cert.commonName ".yourorg.com" = false) →
      TenantExtraction (some st)
          = .httpError 403 ("invalid client certificate CN: " ++ cert.commonName) ∧
      ∀ id, TenantExtraction (some st) ≠ .ok id) ∧
    (goHasPrefix cert.commonName "tenant-" = true →
      goHasSuffix cert.commonName ".yourorg.com" = true →
      goTrimSuffix (goTrimPrefix cert.commonName "tenant-") ".yourorg.com" = "" →
      TenantExtraction (some st) = .httpError 403 "empty tenant ID in certificate" ∧
      ∀ id, TenantExtraction (some st) ≠ .ok id) := by
  refine ⟨?_, ?_, ?_⟩
  · intro hcn
    have heq : TenantExtraction (some st)
        = .httpError 401 "client certificate missing Common Name" := by
      simp [TenantExtraction, hpc, hvc, hcn]
    exact ⟨heq, fun id hok => by rw [heq] at hok; exact ResolverOutcome.noConfusion hok⟩
  · intro hcn hpat
    have heq : TenantExtraction (some st)
        = .httpError 403 ("invalid client certificate CN: " ++ cert.commonName) := by
      simp [TenantExtraction, hpc, hvc, hcn, hpat]
    exact ⟨heq, fun id hok => by rw [heq] at hok; exact ResolverOutcome.noConfusion hok⟩
  · intro hpre hsuf htid
    have hcn : cert.commonName ≠ "" := cn_ne_empty_of_prefix hpre
    have heq : TenantExtraction (some st)
        = .httpError 403 "empty tenant ID in certificate" := by
      simp [TenantExtraction, hpc, hvc, hcn, hpre, hsuf, htid]
    exact ⟨heq, fun id hok => by rw [heq] at hok; exact ResolverOutcome.noConfusion hok⟩

/-- Witness for C3 (amended), at three concrete certificates: empty CN,
a CN without the required pattern, and a CN that strips to an empty id. -/
theorem resolver_reject_cases_witness :
    (TenantExtraction (some (tlsWith "" 3))
        = .httpError 401 "client certificate missing Common Name" ∧
      TenantExtraction (some (tlsWith "" 3)) ≠ .ok "acme") ∧
    (TenantExtraction (some (tlsWith "evil.example.com" 4))
        = .httpError 403 ("invalid client certificate CN: " ++ "evil.example.com") ∧
      TenantExtraction (some (tlsWith "evil.example.com" 4)) ≠ .ok "acme") ∧
    (TenantExtraction (some (tlsWith "tenant-.yourorg.com" 5))
        = .httpError 403 "empty tenant ID in certificate" ∧
      TenantExtraction (some (tlsWith "tenant-.yourorg.com" 5)) ≠ .ok "acme") := by
  refine ⟨⟨?_, ?_⟩, ⟨?_, ?_⟩, ⟨?_, ?_⟩⟩
  · exact (resolver_reject_cases (tlsWith "" 3) ⟨"", 3⟩ [] rfl (by decide)).1 rfl |>.1
  · exact (resolver_reject_cases (tlsWith "" 3) ⟨"", 3⟩ [] rfl (by decide)).1 rfl |>.2 "acme"
  · exact (resolver_reject_cases (tlsWith "evil.example.com" 4) ⟨"evil.example.com", 4⟩ []
      rfl (by decide)).2.1 (by decide) (by decide) |>.1
  · exact (resolver_reject_cases (tlsWith "evil.example.com" 4) ⟨"evil.example.com", 4⟩ []
      rfl (by decide)).2.1 (by decide) (by decide) |>.2 "acme"
  · exact (resolver_reject_cases (tlsWith "tenant-.yourorg.com" 5) ⟨"tenant-.yourorg.com", 5⟩ []
      rfl (by decide)).2.2 (by decide) (by decide) (by decide) |>.1
  · exact (resolver_reject_cases (tlsWith "tenant-.yourorg.com" 5) ⟨"tenant-.yourorg.com", 5⟩ []
      rfl (by decide)).2.2 (by decide) (by decide) (by decide) |>.2 "acme"

/-- C8: a verified leaf certificate with common name
`tenant-<id>.yourorg.com` and non-empty `<id>` resolves to exactly
`<id>`. -/
theorem resolver_extracts_tenant_id
    (st : TLSConnState) (cert : GoCert) (rest : List GoCert) (id : String)
    (hpc : st.peerCertificates = cert :: rest) (hvc : st.verifiedChains ≠ [])
    (hcn : cert.commonName = "tenant-" ++ id ++ ".yourorg.com") (hid : id ≠ "") :
    TenantExtraction (some st) = .ok id := by
  have hpre : goHasPrefix cert.commonName "tenant-" = true := by
    rw [hcn, String.append_assoc]
    exact goHasPrefix_append "tenant-" (id ++ ".yourorg.com")
  have hsuf : goHasSuffix cert.commonName ".yourorg.com" = true := by
    rw [hcn]
    exact goHasSuffix_append ("tenant-" ++ id) ".yourorg.com"
  have hcne : cert.commonName ≠ "" := cn_ne_empty_of_prefix hpre
  have htid : goTrimSuffix (goTrimPrefix cert.commonName "tenant-") ".yourorg.com" = id := by
    rw [hcn, String.append_assoc, goTrimPrefix_append, goTrimSuffix_append]
  simp [TenantExtraction, hpc, hvc, hcne, hpre, hsuf, htid, hid]

/-- Witness for C8: CN `tenant-abc.yourorg.com` resolves to `abc`. -/
theorem resolver_extracts_tenant_id_witness :
    TenantExtraction (some (tlsWith "tenant-abc.yourorg.com" 7)) = .ok "abc" :=
  resolver_extracts_tenant_id (tlsWith "tenant-abc.yourorg.com" 7) ⟨"tenant-abc.yourorg.com", 7⟩
    [] "abc" rfl (by decide) (by decide) (by decide)

/-- C7 counterexample: the namespaced serialization is not injective on
all pairs — a tenant id containing a colon collides with another pair. -/
theorem cache_key_not_injective :
    cacheKey "a:b" "c" = cacheKey "a" "b:c" ∧
    (("a:b", "c") : String × String) ≠ ("a", "b:c") :=
  ⟨by decide, by decide⟩

/-- C7 (amended): the middleware consults the cache under exactly
`idempotency:<tenant_id>:<client_key>` (the `Get` at idempotency.go
line 72 genuinely executes, before the broken recorder is installed),
and on pairs whose tenant id contains no colon this serialization is
injective, so two such distinct pairs are always looked up — and, in
the intended store, recorded — under distinct keys. -/
theorem cache_key_format_and_scoped_injective
    (req : MwRequest) (lk : LookupResult) (sf : Bool) (h : HandlerResp)
    (t t1 k1 t2 k2 : String)
    (hm : isStateChanging req.method = true)
    (hk : req.idempotencyKey ≠ "")
    (ht : req.tenant = some t) (htne : t ≠ "")
    (hc1 : colonFree t1 = true) (hc2 : colonFree t2 = true) :
    (Idempotent req lk sf h).lookupKey
        = some ("idempotency:" ++ t ++ ":" ++ req.idempotencyKey) ∧
    (cacheKey t1 k1 = cacheKey t2 k2 → t1 = t2 ∧ k1 = k2) := by
  constructor
  · cases lk with
    | found e =>
      cases e <;> simp [Idempotent, hm, hk, ht, htne, GetTenantID, recorderCrash, cacheKey]
    | missing => simp [Idempotent, hm, hk, ht, htne, GetTenantID, recorderCrash, cacheKey]
    | failure => simp [Idempotent, hm, hk, ht, htne, GetTenantID, recorderCrash, cacheKey]
  · intro heq
    have hdata : "idempotency:".data ++ (t1.data ++ (':' :: k1.data))
        = "idempotency:".data ++ (t2.data ++ (':' :: k2.data)) := by
      have hd := congrArg String.data heq
      simpa [cacheKey, String.data_append, List.append_assoc] using hd
    have hsplit := split_on_colon t1.data t2.data k1.data k2.data
      (not_mem_of_colonFree hc1) (not_mem_of_colonFree hc2)
      (List.append_cancel_left hdata)
    exact ⟨String.ext hsplit.1, String.ext hsplit.2⟩

/-- Witness for C7 (amended): the sample request is looked up under the
expected literal key, and equal keys of colon-free tenants force equal
pairs. -/
theorem cache_key_format_and_scoped_injective_witness :
    (Idempotent sampleReq .missing false sampleResp).lookupKey
        = some ("idempotency:" ++ "acme" ++ ":" ++ sampleReq.idempotencyKey) ∧
    (cacheKey "acme" "x" = cacheKey "corp" "y" →
      ("acme" : String) = "corp" ∧ ("x" : String) = "y") :=
  cache_key_format_and_scoped_injective sampleReq .missing false sampleResp
    "acme" "acme" "x" "corp" "y"
    (by decide) (by decide) rfl (by decide) (by decide) (by decide)

end B2B
